import Mathlib

/-!
Verification of the campaign context-generation pipeline of the
`akash-outreach` service: the data model (`ContextInfo`, `Student`,
`Campaign`), the `ContextGenerationService` methods
(`generate_campaign_contexts`, `_prepare_context_info`,
`_generate_student_context`, `_create_fallback_context` from
`app/services/context_generation.py`), and the campaign API handlers
(`create_campaign`, `regenerate_contexts`, `update_student_context`,
`activate_campaign`, `pause_campaign`, `delete_campaign` from
`app/api/campaigns.py`).

The outbound chat-completion call is the one external boundary: it is
modelled as an oracle `complete : Student → String → Option String`
taking the student and the flattened knowledge-base text (the two inputs
from which the prompt is assembled) and returning either the response
text or `none` when the call raises.  The SQLAlchemy session is modelled
by passing the relevant table contents as lists.  Python dicts with
string keys are modelled as association lists in insertion order.

The student attribute bag is `Dict[str, Any]` in the source
(`StudentCreate.student_data`), and write-time validation checks key
presence only, never value types, so non-string values (ints, JSON
nulls) are storable and reach the pipeline.  Bag values are therefore
modelled by `PyValue` (string, integer or null), and the operations the
pipeline applies to them are modelled exactly: f-string interpolation is
`str(v)` (`pyStr`, total), truthiness is `pyTruthy` (total), but the
method call `student_name.upper()` in `_create_fallback_context` raises
`AttributeError` unless the value is a `str` — so the fallback, the
per-student loop body and `generate_campaign_contexts` itself return
`Except`, with `.error` standing for a raised exception.
-/

set_option maxRecDepth 4000

namespace AkashOutreach

/-- Model of Python `str.upper()` (character-wise uppercasing). -/
def pyUpper (s : String) : String :=
  ⟨s.data.map Char.toUpper⟩

/-- Model of Python `str.strip()`: drop whitespace from both ends. -/
def pyStrip (s : String) : String :=
  ⟨((s.data.dropWhile Char.isWhitespace).reverse.dropWhile Char.isWhitespace).reverse⟩

/-- A JSON-storable Python value as it can occur in the `Dict[str, Any]`
attribute bag: a string, a number, or null.  (Other JSON types behave
like `int` for the three operations the pipeline applies: they
`str()`-convert, they have a truth value, and they have no `.upper`.) -/
inductive PyValue where
  | str (s : String)
  | int (n : Int)
  | null
deriving DecidableEq

/-- Python `str(v)`: the text an f-string interpolates for a bag value.
Total — interpolation never raises. -/
def pyStr : PyValue → String
  | .str s => s
  | .int n => toString n
  | .null => "None"

/-- Python truthiness of a bag value (`if v`): empty string, zero and
`None` are falsy.  Total. -/
def pyTruthy : PyValue → Bool
  | .str s => s != ""
  | .int n => n != 0
  | .null => false

/-- A row of the `context_info` table (`app/models/context_info.py`):
the fields the generation pipeline reads. -/
structure ContextInfo where
  id : Nat
  topic : String
  information : String
deriving DecidableEq

/-- A row of the `students` table (`app/models/student.py`): the unique
non-null `phone_number` column and the open JSON attribute bag
`student_data` — a `Dict[str, Any]`, so its values are `PyValue`s, not
necessarily strings. -/
structure Student where
  id : Nat
  phone_number : String
  student_data : List (String × PyValue)
deriving DecidableEq

/-- One value of the `personalized_contexts` mapping: the dict
`{"student_name": …, "phone_number": …, "context": …}` built by
`generate_campaign_contexts`.  `student_name` and `phone_number` hold
the raw bag values (`Any` in the source); `context` is the generated or
fallback text, always a string. -/
structure ContextEntry where
  student_name : PyValue
  phone_number : PyValue
  context : String
deriving DecidableEq

/-- Python `d.get(k)` on a string-keyed dict: first binding wins
(a dict holds at most one binding per key). -/
def dictGet {α : Type} (d : List (String × α)) (k : String) : Option α :=
  (d.find? (fun p => p.1 == k)).map (fun p => p.2)

/-- Python `d.get(k, default)`. -/
def dictGetD {α : Type} (d : List (String × α)) (k : String) (default : α) : α :=
  (dictGet d k).getD default

/-- Whether the bag value `_create_fallback_context` binds to
`student_name` (after the `"the student"` default for an absent key) is
a `str`, i.e. whether `student_name.upper()` succeeds. -/
def hasStrName (student : Student) : Bool :=
  match dictGetD student.student_data "student_name" (PyValue.str "the student") with
  | PyValue.str _ => true
  | _ => false

/-- `ContextGenerationService._prepare_context_info`: build one section
per note by appending to a list, then join with blank lines. -/
def prepare_context_info (context_notes : List ContextInfo) : String :=
  let context_sections := context_notes.foldl
    (fun acc note => acc ++ ["**" ++ note.topic ++ "**\n" ++ note.information]) []
  String.intercalate "\n\n" context_sections

/-- The fixed part of the fallback template before the per-note lines
(`_create_fallback_context`, first f-string), applied to the extracted
attribute values.  `student_name` is the already-checked `str` (the
template calls `.upper()` on it); the other named attributes arrive as
the `str()` of their raw values; `course_interest` stays a raw value
because the template tests its truthiness before interpolating.
Association of `++` is immaterial; it is written right-nested. -/
def fallbackHeader (student_name parent_name scholarship_amount scholarship_percentage
    test_score rank_achieved : String) (course_interest : PyValue) : String :=
  "\nðŸŽ‰ PERSONALIZED CONVERSATION CONTEXT FOR " ++
    (pyUpper student_name ++
    ("\n\n**OPENING CONGRATULATIONS**\nCongratulations to " ++
    (student_name ++
    (" on achieving excellent results in the entrance examination! " ++
    (student_name ++
    (" has earned a rank of " ++
    (rank_achieved ++
    (" with a score of " ++
    (test_score ++
    (", which qualifies for a scholarship of â‚¹" ++
    (scholarship_amount ++
    (" (" ++
    (scholarship_percentage ++
    ("% fee waiver).\n\n**KEY TALKING POINTS**\n- Acknowledge " ++
    (student_name ++
    ("'s specific achievement (rank " ++
    (rank_achieved ++
    (", score " ++
    (test_score ++
    (")\n- Scholarship Details: â‚¹" ++
    (scholarship_amount ++
    (" scholarship (" ++
    (scholarship_percentage ++
    ("% fee waiver)\n- Course Interest: " ++
    ((if pyTruthy course_interest then pyStr course_interest else "Discuss available programs") ++
    ("\n- Next Steps: Complete admission formalities and document submission\n\n**CONVERSATION GUIDANCE**\nWhen speaking with " ++
    (parent_name ++
    (":\n1. Start with warm congratulations and specific achievement recognition\n2. Clearly explain scholarship benefits and what it covers\n3. Provide admission timeline and required documentation\n4. Address questions about facilities, courses, and career prospects\n5. Offer assistance with admission process and next steps\n\n**AVAILABLE INSTITUTE INFORMATION**"))))))))))))))))))))))))))))

/-- The fixed part of the fallback template after the per-note lines
(`_create_fallback_context`, second f-string). -/
def fallbackTail (student_name parent_name : String) : String :=
  "\n\n**CONVERSATION OBJECTIVES**\n- Ensure " ++
    (parent_name ++
    (" understands the scholarship value and next steps\n- Address any concerns about admission process or institute facilities\n- Provide clear timeline for admission completion\n- Maintain warm, supportive, and professional tone throughout\n- Offer ongoing support and contact information for further queries\n\n**PERSONALIZATION NOTES**\n- Use " ++
    (student_name ++
    ("'s name frequently to personalize the conversation\n- Reference their specific achievements to build confidence\n- Adapt information based on " ++
    (parent_name ++
    ("'s questions and concerns\n- Maintain encouraging tone about " ++
    (student_name ++
    ("'s bright future prospects\n"))))))))

/-- The per-note line appended by `_create_fallback_context`:
`f"\n- **{note.topic}**: {note.information[:200]}..."`. -/
def fallbackNoteLine (note : ContextInfo) : String :=
  "\n- **" ++ note.topic ++ "**: " ++ note.information.take 200 ++ "..."

/-- `ContextGenerationService._create_fallback_context`: extract the
named attributes with their defaults, substitute them into the fixed
template, append one line per note with a 200-character excerpt, then
append the fixed tail.  No network, no clock, no randomness: a function
of `student.student_data` and `context_notes` alone — but not total:
the template's first interpolation is `student_name.upper()`, which
raises `AttributeError` (modelled as `.error`) whenever the bag holds a
non-`str` value under `"student_name"`.  Every other attribute is only
ever `str()`-interpolated or truth-tested, which never raises. -/
def create_fallback_context (student : Student) (context_notes : List ContextInfo) :
    Except String String :=
  let student_data := student.student_data
  let student_name := dictGetD student_data "student_name" (PyValue.str "the student")
  let parent_name := dictGetD student_data "parent_name" (PyValue.str "Parent")
  let scholarship_amount := dictGetD student_data "scholarship_amount" (PyValue.str "")
  let scholarship_percentage := dictGetD student_data "scholarship_percentage" (PyValue.str "")
  let test_score := dictGetD student_data "test_score" (PyValue.str "")
  let rank_achieved := dictGetD student_data "rank_achieved" (PyValue.str "")
  let course_interest := (dictGet student_data "course_interested").getD
    (dictGetD student_data "preferred_course" (PyValue.str ""))
  match student_name with
  | PyValue.str name =>
      .ok ((context_notes.foldl
        (fun context note => context ++ fallbackNoteLine note)
        (fallbackHeader name (pyStr parent_name) (pyStr scholarship_amount)
          (pyStr scholarship_percentage) (pyStr test_score) (pyStr rank_achieved)
          course_interest))
      ++ fallbackTail name (pyStr parent_name))
  | _ => .error "AttributeError"

/-- `ContextGenerationService._generate_student_context`: assemble the
prompt from the student and the flattened knowledge base, make one
completion call, and return the response text stripped; any exception
from the call (including a missing response) propagates, modelled as
`none`. -/
def generate_student_context (complete : Student → String → Option String)
    (student : Student) (context_info : String) : Option String :=
  (complete student context_info).map pyStrip

/-- The body of the per-student loop in
`ContextGenerationService.generate_campaign_contexts`: on success of
`_generate_student_context` record the AI text, on any exception call
the fallback inside the `except` handler — if the fallback itself
raises (non-`str` `student_name`), that exception is not caught and
propagates.  Either way the `student_name` and `phone_number` fields
come raw from the attribute bag with string defaults `"Student {id}"`
and `"N/A"`. -/
def buildContextEntry (complete : Student → String → Option String)
    (context_notes : List ContextInfo) (student : Student) : Except String ContextEntry :=
  let context_info := prepare_context_info context_notes
  match generate_student_context complete student context_info with
  | some context_text =>
      .ok { student_name := dictGetD student.student_data "student_name"
              (PyValue.str ("Student " ++ toString student.id))
            phone_number := dictGetD student.student_data "phone_number" (PyValue.str "N/A")
            context := context_text }
  | none =>
      match create_fallback_context student context_notes with
      | .ok fallback_context =>
          .ok { student_name := dictGetD student.student_data "student_name"
                  (PyValue.str ("Student " ++ toString student.id))
                phone_number := dictGetD student.student_data "phone_number" (PyValue.str "N/A")
                context := fallback_context }
      | .error e => .error e

/-- `ContextGenerationService.generate_campaign_contexts`: a strictly
sequential loop producing one entry per student, keyed by
`str(student.id)`, in loop order (the Python dict is
insertion-ordered).  An uncaught exception in a loop body (the
fallback's `AttributeError`) aborts the whole call: the partial dict is
discarded and the exception propagates to the caller. -/
def generate_campaign_contexts (complete : Student → String → Option String)
    (campaign_id : Nat) (context_notes : List ContextInfo) :
    List Student → Except String (List (String × ContextEntry))
  | [] => .ok []
  | student :: rest =>
    match buildContextEntry complete context_notes student with
    | .error e => .error e
    | .ok entry =>
        match generate_campaign_contexts complete campaign_id context_notes rest with
        | .error e => .error e
        | .ok entries => .ok ((toString student.id, entry) :: entries)

/-- A row of the `campaigns` table (`app/models/campaign.py`).  Times are
minutes since midnight, datetimes are abstract ticks (`Nat`); the
nullable JSON column `personalized_contexts` is an `Option`al
insertion-ordered map. -/
structure Campaign where
  id : Nat
  name : String
  description : Option String
  context_note_ids : List Nat
  student_ids : List Nat
  call_from_time : Nat
  call_to_time : Nat
  status : String
  total_students : Nat
  students_called : Nat
  successful_calls : Nat
  failed_calls : Nat
  personalized_contexts : Option (List (String × ContextEntry))
  created_by : String
  updated_at : Nat
deriving DecidableEq

/-- Lookup in the `personalized_contexts` map. -/
def pcLookup (personalized_contexts : List (String × ContextEntry)) (k : String) :
    Option ContextEntry :=
  (personalized_contexts.find? (fun p => p.1 == k)).map (fun p => p.2)

/-- The validated body of `POST /campaigns/` after Pydantic parsing
(`CampaignCreate`): both id lists are non-empty by `min_items=1` and the
times already match the `HH:MM` pattern. -/
structure CampaignCreate where
  name : String
  description : Option String
  context_note_ids : List Nat
  student_ids : List Nat
  call_from_time : Nat
  call_to_time : Nat
deriving DecidableEq

/-- `create_campaign` (`app/api/campaigns.py`): validate that every
referenced note and student id resolves, that the calling window is
non-empty, create the row with status `"draft"` and
`personalized_contexts` NULL, then run the generation pipeline inside
`try`: on success store its map, and on any exception log and return the
campaign as created.  `gen` stands for
`ContextGenerationService(db).generate_campaign_contexts` applied to the
resolved rows, `.error` for a pipeline-level exception.  HTTP errors are
modelled as `.error status_code`. -/
def create_campaign (noteStore : List ContextInfo) (studentStore : List Student)
    (campaign_data : CampaignCreate) (new_id : Nat) (username : String) (now : Nat)
    (gen : List ContextInfo → List Student → Except String (List (String × ContextEntry))) :
    Except Nat Campaign :=
  let existing_contexts := noteStore.filter (fun n => campaign_data.context_note_ids.contains n.id)
  if existing_contexts.length ≠ campaign_data.context_note_ids.length then .error 400
  else
    let existing_students := studentStore.filter (fun s => campaign_data.student_ids.contains s.id)
    if existing_students.length ≠ campaign_data.student_ids.length then .error 400
    else if campaign_data.call_from_time ≥ campaign_data.call_to_time then .error 400
    else
      let campaign : Campaign :=
        { id := new_id
          name := campaign_data.name
          description := campaign_data.description
          context_note_ids := campaign_data.context_note_ids
          student_ids := campaign_data.student_ids
          call_from_time := campaign_data.call_from_time
          call_to_time := campaign_data.call_to_time
          status := "draft"
          total_students := campaign_data.student_ids.length
          students_called := 0
          successful_calls := 0
          failed_calls := 0
          personalized_contexts := none
          created_by := username
          updated_at := now }
      match gen existing_contexts existing_students with
      | .ok personalized_contexts =>
          .ok { campaign with personalized_contexts := some personalized_contexts }
      | .error _ => .ok campaign

/-- `regenerate_contexts` (`POST /campaigns/{id}/regenerate-contexts`):
re-resolve the campaign's current note and student ids from the stores,
re-run the full generation pipeline, and overwrite the whole
`personalized_contexts` column with the fresh map.  The handler's
`except` branch turns an exception escaping the pipeline (e.g. the
fallback's `AttributeError`) into HTTP 500, leaving the campaign
unwritten. -/
def regenerate_contexts (campaignStore : List Campaign) (campaign_id : Nat)
    (noteStore : List ContextInfo) (studentStore : List Student)
    (complete : Student → String → Option String) (now : Nat) : Except Nat Campaign :=
  match campaignStore.find? (fun c => c.id == campaign_id) with
  | none => .error 404
  | some campaign =>
      let contexts := noteStore.filter (fun n => campaign.context_note_ids.contains n.id)
      let students := studentStore.filter (fun s => campaign.student_ids.contains s.id)
      match generate_campaign_contexts complete campaign.id contexts students with
      | .ok personalized_contexts =>
          .ok { campaign with
                  personalized_contexts := some personalized_contexts
                  updated_at := now }
      | .error _ => .error 500

/-- `update_student_context` (`PUT /campaigns/{id}/contexts/{student_id}`):
404 unless the campaign exists and already holds an entry for
`str(student_id)`; then overwrite that entry's `context` with the body's
`"context"` value (default `""`) and refresh `updated_at`. -/
def update_student_context (campaignStore : List Campaign) (campaign_id : Nat)
    (student_id : Nat) (context_data : List (String × String)) (now : Nat) :
    Except Nat Campaign :=
  match campaignStore.find? (fun c => c.id == campaign_id) with
  | none => .error 404
  | some campaign =>
      let personalized_contexts := campaign.personalized_contexts.getD []
      if (pcLookup personalized_contexts (toString student_id)).isNone then .error 404
      else
        let new_context := dictGetD context_data "context" ""
        let updated := personalized_contexts.map (fun p =>
          if p.1 == toString student_id then (p.1, { p.2 with context := new_context }) else p)
        .ok { campaign with
                personalized_contexts := some updated
                updated_at := now }

/-- `activate_campaign` (`POST /campaigns/{id}/activate`): only a
`"draft"` campaign may become `"active"`; any other status raises
HTTP 400 before any mutation. -/
def activate_campaign (campaignStore : List Campaign) (campaign_id : Nat) (now : Nat) :
    Except Nat Campaign :=
  match campaignStore.find? (fun c => c.id == campaign_id) with
  | none => .error 404
  | some campaign =>
      if campaign.status ≠ "draft" then .error 400
      else .ok { campaign with status := "active", updated_at := now }

/-- `pause_campaign` (`POST /campaigns/{id}/pause`): only an `"active"`
campaign may become `"paused"`; any other status raises HTTP 400 before
any mutation. -/
def pause_campaign (campaignStore : List Campaign) (campaign_id : Nat) (now : Nat) :
    Except Nat Campaign :=
  match campaignStore.find? (fun c => c.id == campaign_id) with
  | none => .error 404
  | some campaign =>
      if campaign.status ≠ "active" then .error 400
      else .ok { campaign with status := "paused", updated_at := now }

/-- `delete_campaign` (`DELETE /campaigns/{id}`): only a `"draft"`
campaign may be deleted; on success the row is removed from the store,
otherwise HTTP 400 is raised before any mutation. -/
def delete_campaign (campaignStore : List Campaign) (campaign_id : Nat) :
    Except Nat (List Campaign) :=
  match campaignStore.find? (fun c => c.id == campaign_id) with
  | none => .error 404
  | some campaign =>
      if campaign.status ≠ "draft" then .error 400
      else .ok (campaignStore.filter (fun c => c.id != campaign_id))

/-- `needle` occurs contiguously inside `hay` (Python `needle in hay`). -/
def StrContains (hay needle : String) : Prop :=
  needle.data <:+: hay.data

instance (hay needle : String) : Decidable (StrContains hay needle) :=
  inferInstanceAs (Decidable (needle.data <:+: hay.data))

/-! Concrete fixtures used by witnesses and counterexamples. -/

def wNote : ContextInfo :=
  { id := 1, topic := "Fees", information := "Rs 50,000 per year" }

def wStudent : Student :=
  { id := 1, phone_number := "+911234567890",
    student_data := [("student_name", PyValue.str "Asha"),
      ("scholarship_amount", PyValue.int 5000)] }

def wStudent2 : Student :=
  { id := 2, phone_number := "+919999999999", student_data := [] }

/-- Same attribute bag as `wStudent`, different row id and phone column. -/
def wStudentTwin : Student :=
  { id := 99, phone_number := "0000000000",
    student_data := [("student_name", PyValue.str "Asha"),
      ("scholarship_amount", PyValue.int 5000)] }

/-- A student storable through `POST /students` (key-presence-only
validation): the bag holds a non-string under `"student_name"`, on
which `student_name.upper()` raises `AttributeError`. -/
def wBadStudent : Student :=
  { id := 3, phone_number := "+917777777777",
    student_data := [("student_name", PyValue.int 123)] }

/-- The fallback brief of `wStudent2` (empty bag, so it is `.ok`). -/
def wFallback2 : String :=
  match create_fallback_context wStudent2 [wNote] with
  | .ok out => out
  | .error e => e

/-- The entry the loop builds for `wStudent2` when its completion call
raises: defaulted name and phone, fallback context. -/
def wEntryS2 : ContextEntry :=
  { student_name := PyValue.str "Student 2", phone_number := PyValue.str "N/A",
    context := wFallback2 }

/-- An oracle whose completion call always raises. -/
def failComplete : Student → String → Option String := fun _ _ => none

/-- An oracle whose completion call always returns the empty response. -/
def blankComplete : Student → String → Option String := fun _ _ => some ""

def wEntry1 : ContextEntry :=
  { student_name := PyValue.str "Asha", phone_number := PyValue.str "111",
    context := "old brief 1" }

def wEntry2 : ContextEntry :=
  { student_name := PyValue.str "Ravi", phone_number := PyValue.str "222",
    context := "old brief 2" }

def wCampaign : Campaign :=
  { id := 10, name := "Admissions April", description := none,
    context_note_ids := [1], student_ids := [1, 2],
    call_from_time := 540, call_to_time := 1020,
    status := "draft", total_students := 2,
    students_called := 0, successful_calls := 0, failed_calls := 0,
    personalized_contexts := some [("1", wEntry1), ("2", wEntry2)],
    created_by := "admin", updated_at := 0 }

def wActive : Campaign := { wCampaign with id := 11, status := "active" }

def wCreateData : CampaignCreate :=
  { name := "Admissions April", description := none,
    context_note_ids := [1], student_ids := [1],
    call_from_time := 540, call_to_time := 1020 }

/-- A generation pipeline that fails before its per-student loop. -/
def failGen : List ContextInfo → List Student → Except String (List (String × ContextEntry)) :=
  fun _ _ => .error "client construction failed"

theorem strContains_append_left (a b needle : String) (h : StrContains a needle) :
    StrContains (a ++ b) needle := by
  unfold StrContains at h ⊢
  rw [String.data_append]
  exact h.trans (a.data.prefix_append b.data).isInfix

theorem strContains_append_right (a b needle : String) (h : StrContains b needle) :
    StrContains (a ++ b) needle := by
  unfold StrContains at h ⊢
  rw [String.data_append]
  exact h.trans (List.suffix_append a.data b.data).isInfix

theorem strContains_of_strContains (hay mid needle : String) (hm : StrContains hay mid)
    (hn : StrContains mid needle) : StrContains hay needle :=
  List.IsInfix.trans hn hm

theorem strContains_self (s : String) : StrContains s s :=
  List.infix_refl s.data

theorem ne_empty_of_strContains (hay needle : String) (hc : StrContains hay needle)
    (hn : needle ≠ "") : hay ≠ "" := by
  intro he
  subst he
  obtain ⟨s, t, hst⟩ := hc
  have hs : s ++ needle.data ++ t = ([] : List Char) := hst
  rcases List.append_eq_nil.mp hs with ⟨hs1, -⟩
  rcases List.append_eq_nil.mp hs1 with ⟨-, hs2⟩
  exact hn (String.ext hs2)

theorem foldl_append_extract {α : Type} (g : α → String) :
    ∀ (l : List α) (acc : String),
      ∃ r : String, List.foldl (fun a x => a ++ g x) acc l = acc ++ r
  | [], acc => ⟨"", by simp⟩
  | x :: xs, acc => by
    obtain ⟨r, hr⟩ := foldl_append_extract g xs (acc ++ g x)
    exact ⟨g x ++ r, by rw [List.foldl_cons, hr, String.append_assoc]⟩

theorem strContains_foldl_init {α : Type} (g : α → String) (l : List α)
    (init needle : String) (h : StrContains init needle) :
    StrContains (List.foldl (fun a x => a ++ g x) init l) needle := by
  obtain ⟨r, hr⟩ := foldl_append_extract g l init
  rw [hr]
  exact strContains_append_left _ _ _ h

theorem fallbackHeader_contains_personalized (a b c d e f : String) (g : PyValue) :
    StrContains (fallbackHeader a b c d e f g) "PERSONALIZED CONVERSATION CONTEXT FOR" := by
  unfold fallbackHeader
  apply strContains_append_left
  decide

theorem fallbackHeader_contains_keypoints (a b c d e f : String) (g : PyValue) :
    StrContains (fallbackHeader a b c d e f g) "KEY TALKING POINTS" := by
  unfold fallbackHeader
  iterate 14 apply strContains_append_right
  apply strContains_append_left
  decide

theorem fallbackHeader_contains_guidance (a b c d e f : String) (g : PyValue) :
    StrContains (fallbackHeader a b c d e f g) "CONVERSATION GUIDANCE" := by
  unfold fallbackHeader
  iterate 26 apply strContains_append_right
  apply strContains_append_left
  decide

/-- The fallback raises exactly when the bag's `student_name` is a
non-`str` value: with a `str` (or absent) name it returns a brief. -/
theorem create_fallback_ok_of_strName (student : Student) (context_notes : List ContextInfo)
    (h : hasStrName student = true) :
    ∃ out, create_fallback_context student context_notes = .ok out := by
  cases hfb : create_fallback_context student context_notes with
  | ok out => exact ⟨out, rfl⟩
  | error e =>
      exfalso
      unfold hasStrName at h
      simp only [create_fallback_context] at hfb
      cases hv : dictGetD student.student_data "student_name" (PyValue.str "the student") with
      | str name => rw [hv] at hfb; simp at hfb
      | int n => rw [hv] at h; simp at h
      | null => rw [hv] at h; simp at h

/-- Whenever the fallback returns a brief, that brief carries the three
structural headers of the template, whatever the student data and notes
are. -/
theorem create_fallback_contains_headers (student : Student) (context_notes : List ContextInfo)
    (out : String) (h : create_fallback_context student context_notes = .ok out) :
    StrContains out "PERSONALIZED CONVERSATION CONTEXT FOR"
      ∧ StrContains out "KEY TALKING POINTS"
      ∧ StrContains out "CONVERSATION GUIDANCE" := by
  simp only [create_fallback_context] at h
  cases hv : dictGetD student.student_data "student_name" (PyValue.str "the student") with
  | str name =>
      rw [hv] at h
      simp only [Except.ok.injEq] at h
      subst h
      refine ⟨?_, ?_, ?_⟩
      · exact strContains_append_left _ _ _
          (strContains_foldl_init _ _ _ _ (fallbackHeader_contains_personalized _ _ _ _ _ _ _))
      · exact strContains_append_left _ _ _
          (strContains_foldl_init _ _ _ _ (fallbackHeader_contains_keypoints _ _ _ _ _ _ _))
      · exact strContains_append_left _ _ _
          (strContains_foldl_init _ _ _ _ (fallbackHeader_contains_guidance _ _ _ _ _ _ _))
  | int n => rw [hv] at h; simp at h
  | null => rw [hv] at h; simp at h

/-- A successfully built fallback brief is never the empty string. -/
theorem create_fallback_ne_empty (student : Student) (context_notes : List ContextInfo)
    (out : String) (h : create_fallback_context student context_notes = .ok out) :
    out ≠ "" :=
  ne_empty_of_strContains _ _ (create_fallback_contains_headers student context_notes out h).1
    (by decide)

/-- The fields of a successfully built entry: `student_name` and
`phone_number` come raw from the attribute bag with the loop's string
defaults, on both the AI and the fallback branch. -/
theorem buildContextEntry_fields (complete : Student → String → Option String)
    (context_notes : List ContextInfo) (student : Student) (entry : ContextEntry)
    (he : buildContextEntry complete context_notes student = .ok entry) :
    entry.student_name
        = dictGetD student.student_data "student_name"
            (PyValue.str ("Student " ++ toString student.id))
    ∧ entry.phone_number = dictGetD student.student_data "phone_number" (PyValue.str "N/A") := by
  cases hc : generate_student_context complete student (prepare_context_info context_notes) with
  | some t =>
      simp [buildContextEntry, hc] at he
      rw [← he]
      exact ⟨rfl, rfl⟩
  | none =>
      cases hfb : create_fallback_context student context_notes with
      | ok fb =>
          simp [buildContextEntry, hc, hfb] at he
          rw [← he]
          exact ⟨rfl, rfl⟩
      | error e =>
          simp [buildContextEntry, hc, hfb] at he

/-- An entry of a returned mapping comes from one input student: its key
is that student's `str(id)` and its value is the loop body's output. -/
theorem generate_mem (complete : Student → String → Option String) (campaign_id : Nat)
    (context_notes : List ContextInfo) :
    ∀ (students : List Student) (m : List (String × ContextEntry)),
      generate_campaign_contexts complete campaign_id context_notes students = .ok m →
      ∀ p ∈ m, ∃ s ∈ students, p.1 = toString s.id
        ∧ buildContextEntry complete context_notes s = .ok p.2
  | [], m, hm, p, hp => by
      simp [generate_campaign_contexts] at hm
      subst hm
      cases hp
  | student :: rest, m, hm, p, hp => by
      simp only [generate_campaign_contexts] at hm
      cases hbe : buildContextEntry complete context_notes student with
      | error e => rw [hbe] at hm; simp at hm
      | ok entry =>
          rw [hbe] at hm
          cases hrest : generate_campaign_contexts complete campaign_id context_notes rest with
          | error e => rw [hrest] at hm; simp at hm
          | ok entries =>
              rw [hrest] at hm
              simp only [Except.ok.injEq] at hm
              subst hm
              rcases List.mem_cons.mp hp with rfl | hp2
              · exact ⟨student, List.mem_cons_self _ _, rfl, hbe⟩
              · obtain ⟨s, hs, h1, h2⟩ :=
                  generate_mem complete campaign_id context_notes rest entries hrest p hp2
                exact ⟨s, List.mem_cons_of_mem _ hs, h1, h2⟩

/-- When every student whose completion call fails has a `str` (or
absent) `student_name`, the loop completes and returns one entry per
student, keyed `str(id)`, in input order. -/
theorem generate_ok_of_strNames (complete : Student → String → Option String)
    (campaign_id : Nat) (context_notes : List ContextInfo) :
    ∀ students : List Student,
      (∀ s ∈ students,
        complete s (prepare_context_info context_notes) = none → hasStrName s = true) →
      ∃ m, generate_campaign_contexts complete campaign_id context_notes students = .ok m
        ∧ m.map Prod.fst = students.map (fun s => toString s.id)
  | [], _ => ⟨[], rfl, rfl⟩
  | student :: rest, hok => by
    obtain ⟨m, hm, hkeys⟩ := generate_ok_of_strNames complete campaign_id context_notes rest
      (fun s hs => hok s (List.mem_cons_of_mem _ hs))
    obtain ⟨e, he⟩ : ∃ e, buildContextEntry complete context_notes student = .ok e := by
      cases hbe : buildContextEntry complete context_notes student with
      | ok e => exact ⟨e, rfl⟩
      | error e =>
          exfalso
          cases hc : complete student (prepare_context_info context_notes) with
          | some t => simp [buildContextEntry, generate_student_context, hc] at hbe
          | none =>
              obtain ⟨out, hout⟩ := create_fallback_ok_of_strName student context_notes
                (hok student (List.mem_cons_self _ _) hc)
              simp [buildContextEntry, generate_student_context, hc, hout] at hbe
    refine ⟨(toString student.id, e) :: m, ?_, ?_⟩
    · simp [generate_campaign_contexts, he, hm]
    · simp [hkeys]

/-- The section list built by `_prepare_context_info`'s loop is the map
of the section template over the notes, in order. -/
theorem prepare_sections_eq_map :
    ∀ (l : List ContextInfo) (acc : List String),
      List.foldl (fun acc note => acc ++ ["**" ++ note.topic ++ "**\n" ++ note.information]) acc l
        = acc ++ l.map (fun note => "**" ++ note.topic ++ "**\n" ++ note.information)
  | [], acc => by simp
  | x :: xs, acc => by
    have ih := prepare_sections_eq_map xs
      (acc ++ ["**" ++ x.topic ++ "**\n" ++ x.information])
    simpa using ih

/-- `String.intercalate.go acc sep l` contains `acc` and every element
of `l` as contiguous substrings. -/
theorem intercalate_go_contains (sep : String) :
    ∀ (l : List String) (acc : String),
      StrContains (String.intercalate.go acc sep l) acc
        ∧ ∀ p ∈ l, StrContains (String.intercalate.go acc sep l) p
  | [], acc => ⟨strContains_self acc, by simp⟩
  | a :: as, acc => by
    have ih := intercalate_go_contains sep as (acc ++ sep ++ a)
    refine ⟨?_, ?_⟩
    · exact strContains_of_strContains _ _ _ ih.1
        (strContains_append_left _ _ _ (strContains_append_left _ _ _ (strContains_self acc)))
    · intro p hp
      rcases List.mem_cons.mp hp with rfl | hp
      · exact strContains_of_strContains _ _ _ ih.1
          (strContains_append_right _ _ _ (strContains_self p))
      · exact ih.2 p hp

/-- Every part occurs contiguously in the intercalation. -/
theorem intercalate_contains (sep : String) (l : List String) (p : String) (hp : p ∈ l) :
    StrContains (String.intercalate sep l) p := by
  cases l with
  | nil => cases hp
  | cons a as =>
    rcases List.mem_cons.mp hp with rfl | hp
    · exact (intercalate_go_contains sep as p).1
    · exact (intercalate_go_contains sep as a).2 p hp

/-- C1 counterexample: one non-empty note list and one non-empty
student list on which `generate_campaign_contexts` returns no mapping
at all — the student's bag (storable through the key-presence-only
validation of `POST /students`) holds `student_name: 123`, the
completion call fails, and the fallback inside the `except` handler
raises `AttributeError` at `student_name.upper()`, which propagates out
of the whole call. -/
theorem generate_campaign_contexts_keys_counterexample :
    ([wNote] ≠ ([] : List ContextInfo)) ∧ ([wBadStudent] ≠ ([] : List Student))
    ∧ generate_campaign_contexts failComplete 1 [wNote] [wBadStudent]
        = .error "AttributeError" :=
  ⟨by decide, by decide, rfl⟩

/-- C1 (amended): for non-empty `students` and `context_notes`, when
every student whose completion call fails has a `str`-valued (or
absent) `student_name` attribute, `generate_campaign_contexts` returns
a mapping whose keys are exactly `str(s.id)` for the input students,
one entry per student, with no student omitted and no extra key;
otherwise the fallback's `AttributeError` propagates and no mapping is
returned. -/
theorem generate_campaign_contexts_keys
    (complete : Student → String → Option String) (campaign_id : Nat)
    (context_notes : List ContextInfo) (students : List Student)
    (hnotes : context_notes ≠ []) (hstudents : students ≠ [])
    (hok : ∀ s ∈ students,
      complete s (prepare_context_info context_notes) = none → hasStrName s = true) :
    ∃ m, generate_campaign_contexts complete campaign_id context_notes students = .ok m
      ∧ m.map Prod.fst = students.map (fun s => toString s.id) :=
  generate_ok_of_strNames complete campaign_id context_notes students hok

theorem generate_campaign_contexts_keys_witness :
    ∃ m, generate_campaign_contexts failComplete 1 [wNote] [wStudent, wStudent2] = .ok m
      ∧ m.map Prod.fst = [wStudent, wStudent2].map (fun s => toString s.id) :=
  generate_campaign_contexts_keys failComplete 1 [wNote] [wStudent, wStudent2]
    (by decide) (by decide) (by decide)

/-- C2 counterexample: a concrete student (storable through the
key-presence-only validation) whose bag holds `student_name: 123`:
`_create_fallback_context` raises `AttributeError` at
`student_name.upper()` instead of returning a string, refuting
"never raises an exception". -/
theorem create_fallback_context_counterexample :
    create_fallback_context wBadStudent [wNote] = .error "AttributeError" := rfl

/-- C2 (amended): `_create_fallback_context` makes no network call and
is a function of `student_data` and `context_notes` alone — two
students with identical attribute bags get byte-identical results,
whatever their other fields are — and it returns a brief (never
raises) for every student whose `student_name` attribute, after the
`"the student"` default, is a `str`; for a non-`str` `student_name` it
raises `AttributeError` at `student_name.upper()`. -/
theorem create_fallback_context_pure (s t : Student) (context_notes : List ContextInfo)
    (hdata : s.student_data = t.student_data) (hname : hasStrName s = true) :
    (∃ out, create_fallback_context s context_notes = .ok out)
    ∧ create_fallback_context s context_notes = create_fallback_context t context_notes :=
  ⟨create_fallback_ok_of_strName s context_notes hname, by
    simp only [create_fallback_context]
    rw [hdata]⟩

theorem create_fallback_context_pure_witness :
    (∃ out, create_fallback_context wStudent [wNote] = .ok out)
    ∧ create_fallback_context wStudent [wNote] = create_fallback_context wStudentTwin [wNote] :=
  create_fallback_context_pure wStudent wStudentTwin [wNote] (by decide) (by decide)

/-- C8: `_prepare_context_info` returns exactly the section strings
`"**{topic}**\n{information}"`, one per note in input order, joined by
one blank line, and every note's full section occurs in the output (no
deduplication, truncation or filtering). -/
theorem prepare_context_info_spec (context_notes : List ContextInfo) :
    prepare_context_info context_notes
        = String.intercalate "\n\n"
            (context_notes.map (fun note => "**" ++ note.topic ++ "**\n" ++ note.information))
      ∧ ∀ note ∈ context_notes,
          StrContains (prepare_context_info context_notes)
            ("**" ++ note.topic ++ "**\n" ++ note.information) := by
  have h1 : prepare_context_info context_notes
      = String.intercalate "\n\n"
          (context_notes.map (fun note => "**" ++ note.topic ++ "**\n" ++ note.information)) := by
    simp only [prepare_context_info]
    rw [prepare_sections_eq_map context_notes []]
    simp
  refine ⟨h1, ?_⟩
  intro note hnote
  rw [h1]
  exact intercalate_contains _ _ _
    (List.mem_map_of_mem (fun note => "**" ++ note.topic ++ "**\n" ++ note.information) hnote)

/-- C10: the `student_name` and `phone_number` fields of every produced
entry are read from the attribute bag with string defaults
`"Student {id}"` and `"N/A"`, on both the AI and the fallback path;
they never consult the `Student` row's `phone_number` column (varying
the column leaves the fields unchanged), so a student whose bag lacks
the key gets `"N/A"` even though the row's column always holds a real
number. -/
theorem entry_fields_from_attribute_bag
    (complete : Student → String → Option String) (context_notes : List ContextInfo)
    (student : Student) (entry : ContextEntry)
    (he : buildContextEntry complete context_notes student = .ok entry) :
    entry.student_name
        = dictGetD student.student_data "student_name"
            (PyValue.str ("Student " ++ toString student.id))
    ∧ entry.phone_number = dictGetD student.student_data "phone_number" (PyValue.str "N/A")
    ∧ (dictGet student.student_data "phone_number" = none →
        entry.phone_number = PyValue.str "N/A")
    ∧ ∀ pn : String, ∀ e2 : ContextEntry,
        buildContextEntry complete context_notes { student with phone_number := pn } = .ok e2 →
          e2.phone_number = dictGetD student.student_data "phone_number" (PyValue.str "N/A")
        ∧ e2.student_name
            = dictGetD student.student_data "student_name"
                (PyValue.str ("Student " ++ toString student.id)) := by
  obtain ⟨h1, h2⟩ := buildContextEntry_fields complete context_notes student entry he
  refine ⟨h1, h2, ?_, ?_⟩
  · intro hnone
    rw [h2]
    simp [dictGetD, hnone]
  · intro pn e2 he2
    obtain ⟨g1, g2⟩ := buildContextEntry_fields complete context_notes
      { student with phone_number := pn } e2 he2
    exact ⟨g2, g1⟩

theorem entry_fields_from_attribute_bag_witness :
    wEntryS2.student_name
        = dictGetD wStudent2.student_data "student_name"
            (PyValue.str ("Student " ++ toString wStudent2.id))
    ∧ wEntryS2.phone_number = dictGetD wStudent2.student_data "phone_number" (PyValue.str "N/A") :=
  ⟨(entry_fields_from_attribute_bag failComplete [wNote] wStudent2 wEntryS2 rfl).1,
   (entry_fields_from_attribute_bag failComplete [wNote] wStudent2 wEntryS2 rfl).2.1⟩

/-- C3 counterexample: on the concrete campaign `wCampaign` the manual
context edit does return the targeted patch, but it also rewrites the
campaign's `updated_at` column (`campaign.updated_at = datetime.utcnow()`
in the handler), so not every other field is byte-identical. -/
theorem update_student_context_counterexample :
    update_student_context [wCampaign] 10 1 [("context", "edited")] 5
        = .ok { wCampaign with
            personalized_contexts :=
              some [("1", { wEntry1 with context := "edited" }), ("2", wEntry2)]
            updated_at := 5 }
    ∧ ({ wCampaign with
            personalized_contexts :=
              some [("1", { wEntry1 with context := "edited" }), ("2", wEntry2)]
            updated_at := 5 } : Campaign).updated_at ≠ wCampaign.updated_at :=
  ⟨rfl, by decide⟩

/-- C3 (amended): when the campaign exists and holds an entry for the
student, the edit returns the campaign with only two changes — the
targeted entry's `context` is replaced by the body's `"context"` value
and `updated_at` is set to the current time; every other entry of
`personalized_contexts` and every other campaign field is unchanged,
and the targeted entry keeps its `student_name` and `phone_number`. -/
theorem update_student_context_frame
    (campaignStore : List Campaign) (campaign_id student_id : Nat)
    (context_data : List (String × String)) (now : Nat)
    (campaign : Campaign) (pc : List (String × ContextEntry))
    (hfind : campaignStore.find? (fun c => c.id == campaign_id) = some campaign)
    (hpc : campaign.personalized_contexts = some pc)
    (hmem : (pcLookup pc (toString student_id)).isSome) :
    ∃ pc2,
      update_student_context campaignStore campaign_id student_id context_data now
          = .ok { campaign with personalized_contexts := some pc2, updated_at := now }
      ∧ pc2.length = pc.length
      ∧ (∀ p ∈ pc, p.1 ≠ toString student_id → p ∈ pc2)
      ∧ (∀ q ∈ pc2, q.1 ≠ toString student_id → q ∈ pc)
      ∧ (∀ q ∈ pc2, q.1 = toString student_id →
            q.2.context = dictGetD context_data "context" ""
          ∧ ∃ p ∈ pc, p.1 = q.1 ∧ p.2.student_name = q.2.student_name
              ∧ p.2.phone_number = q.2.phone_number) := by
  rcases Option.isSome_iff_exists.mp hmem with ⟨e0, he0⟩
  refine ⟨pc.map (fun p => if p.1 == toString student_id then
      (p.1, { p.2 with context := dictGetD context_data "context" "" }) else p),
    ?_, ?_, ?_, ?_, ?_⟩
  · simp [update_student_context, hfind, hpc, he0]
  · simp [List.length_map]
  · intro p hp hne
    refine List.mem_map.mpr ⟨p, hp, ?_⟩
    simp [hne]
  · intro q hq hne
    rcases List.mem_map.mp hq with ⟨p, hp, hq2⟩
    by_cases hkey : p.1 = toString student_id
    · exfalso
      apply hne
      rw [← hq2]
      simp [hkey]
    · rw [← hq2]
      simpa [hkey] using hp
  · intro q hq hkey
    rcases List.mem_map.mp hq with ⟨p, hp, hq2⟩
    by_cases h : p.1 = toString student_id
    · refine ⟨?_, p, hp, ?_, ?_, ?_⟩ <;> rw [← hq2] <;> simp [h]
    · exfalso
      apply h
      rw [← hkey, ← hq2]
      simp [h]

theorem update_student_context_frame_witness :
    ∃ pc2, update_student_context [wCampaign] 10 1 [("context", "edited")] 5
        = .ok { wCampaign with personalized_contexts := some pc2, updated_at := 5 } := by
  obtain ⟨pc2, h1, -, -, -, -⟩ := update_student_context_frame [wCampaign] 10 1
    [("context", "edited")] 5 wCampaign [("1", wEntry1), ("2", wEntry2)] rfl rfl (by decide)
  exact ⟨pc2, h1⟩

/-- C4: when the referenced ids all resolve and the calling window is
valid, a pipeline-level generation failure (`gen` returning `.error`)
is caught: `create_campaign` still returns the created campaign, in
status `"draft"` with `personalized_contexts` left unset. -/
theorem create_campaign_generation_failure
    (noteStore : List ContextInfo) (studentStore : List Student)
    (campaign_data : CampaignCreate) (new_id : Nat) (username : String) (now : Nat)
    (gen : List ContextInfo → List Student → Except String (List (String × ContextEntry)))
    (e : String)
    (hnotes : (noteStore.filter (fun n => campaign_data.context_note_ids.contains n.id)).length
        = campaign_data.context_note_ids.length)
    (hstudents : (studentStore.filter (fun s => campaign_data.student_ids.contains s.id)).length
        = campaign_data.student_ids.length)
    (htime : campaign_data.call_from_time < campaign_data.call_to_time)
    (hgen : gen (noteStore.filter (fun n => campaign_data.context_note_ids.contains n.id))
              (studentStore.filter (fun s => campaign_data.student_ids.contains s.id))
          = .error e) :
    create_campaign noteStore studentStore campaign_data new_id username now gen
      = .ok { id := new_id, name := campaign_data.name,
              description := campaign_data.description,
              context_note_ids := campaign_data.context_note_ids,
              student_ids := campaign_data.student_ids,
              call_from_time := campaign_data.call_from_time,
              call_to_time := campaign_data.call_to_time,
              status := "draft", total_students := campaign_data.student_ids.length,
              students_called := 0, successful_calls := 0, failed_calls := 0,
              personalized_contexts := none, created_by := username,
              updated_at := now } := by
  simp only [create_campaign]
  rw [if_neg (not_not_intro hnotes), if_neg (not_not_intro hstudents),
    if_neg (Nat.not_le.mpr htime), hgen]

theorem create_campaign_generation_failure_witness :
    create_campaign [wNote] [wStudent] wCreateData 42 "admin" 7 failGen
      = .ok { id := 42, name := wCreateData.name,
              description := wCreateData.description,
              context_note_ids := wCreateData.context_note_ids,
              student_ids := wCreateData.student_ids,
              call_from_time := wCreateData.call_from_time,
              call_to_time := wCreateData.call_to_time,
              status := "draft", total_students := wCreateData.student_ids.length,
              students_called := 0, successful_calls := 0, failed_calls := 0,
              personalized_contexts := none, created_by := "admin",
              updated_at := 7 } :=
  create_campaign_generation_failure [wNote] [wStudent] wCreateData 42 "admin" 7 failGen
    "client construction failed" (by decide) (by decide) (by decide) rfl

/-- C5 counterexample: an AI completion that returns the empty string is
taken verbatim, so the returned mapping carries an empty `context` —
the claim that every entry's context is non-empty fails. -/
theorem generated_context_empty_counterexample :
    generate_campaign_contexts blankComplete 1 [wNote] [wStudent]
      = .ok [("1", { student_name := PyValue.str "Asha",
                     phone_number := PyValue.str "N/A", context := "" })] := rfl

/-- C5 (amended): in every returned mapping, an entry's `context` is
never `None`; on the fallback path it is always non-empty, and on the
AI path it equals the stripped completion text — which is empty exactly
when the completion returned only whitespace. -/
theorem generated_context_nonempty
    (complete : Student → String → Option String) (campaign_id : Nat)
    (context_notes : List ContextInfo) (students : List Student)
    (m : List (String × ContextEntry))
    (hm : generate_campaign_contexts complete campaign_id context_notes students = .ok m)
    (p : String × ContextEntry) (hp : p ∈ m) :
    ∃ s ∈ students, p.1 = toString s.id
      ∧ (complete s (prepare_context_info context_notes) = none → p.2.context ≠ "")
      ∧ (∀ t, complete s (prepare_context_info context_notes) = some t →
          p.2.context = pyStrip t) := by
  obtain ⟨s, hs, h1, hbe⟩ :=
    generate_mem complete campaign_id context_notes students m hm p hp
  refine ⟨s, hs, h1, ?_, ?_⟩
  · intro hnone
    have hgen : generate_student_context complete s (prepare_context_info context_notes)
        = none := by simp [generate_student_context, hnone]
    cases hfb : create_fallback_context s context_notes with
    | ok fb =>
        simp [buildContextEntry, hgen, hfb] at hbe
        rw [← hbe]
        exact create_fallback_ne_empty s context_notes fb hfb
    | error e => simp [buildContextEntry, hgen, hfb] at hbe
  · intro t ht
    have hgen : generate_student_context complete s (prepare_context_info context_notes)
        = some (pyStrip t) := by simp [generate_student_context, ht]
    simp [buildContextEntry, hgen] at hbe
    rw [← hbe]

theorem generated_context_nonempty_witness :
    ∃ m p, generate_campaign_contexts failComplete 1 [wNote] [wStudent] = .ok m
      ∧ p ∈ m
      ∧ (∃ s ∈ [wStudent], p.1 = toString s.id
          ∧ (failComplete s (prepare_context_info [wNote]) = none → p.2.context ≠ "")
          ∧ (∀ t, failComplete s (prepare_context_info [wNote]) = some t →
              p.2.context = pyStrip t)) := by
  obtain ⟨m, hm, hkeys⟩ := generate_ok_of_strNames failComplete 1 [wNote] [wStudent] (by decide)
  obtain ⟨p, rest, rfl⟩ : ∃ p rest, m = p :: rest := by
    cases m with
    | nil => simp [wStudent] at hkeys
    | cons p rest => exact ⟨p, rest, rfl⟩
  exact ⟨p :: rest, p, hm, List.mem_cons_self _ _,
    generated_context_nonempty failComplete 1 [wNote] [wStudent] (p :: rest) hm p
      (List.mem_cons_self _ _)⟩

/-- C6: whenever the re-run pipeline returns a mapping, regenerate
re-resolves the campaign's current note and student ids, re-runs the
whole pipeline, and replaces the entire `personalized_contexts` map
with the fresh result — whatever map `prev` was stored before (manual
edits included) does not appear in the output, and there is no
per-student increment. -/
theorem regenerate_contexts_overwrites
    (campaign : Campaign) (prev : Option (List (String × ContextEntry)))
    (noteStore : List ContextInfo) (studentStore : List Student)
    (complete : Student → String → Option String) (now : Nat)
    (m : List (String × ContextEntry))
    (hgen : generate_campaign_contexts complete campaign.id
        (noteStore.filter (fun n => campaign.context_note_ids.contains n.id))
        (studentStore.filter (fun s => campaign.student_ids.contains s.id)) = .ok m) :
    regenerate_contexts [{ campaign with personalized_contexts := prev }] campaign.id
        noteStore studentStore complete now
      = .ok { campaign with personalized_contexts := some m, updated_at := now } := by
  have hgen2 := hgen
  simp only [List.contains, List.elem_eq_mem] at hgen2
  simp [regenerate_contexts, List.find?, hgen2]

theorem regenerate_contexts_overwrites_witness :
    ∃ m, generate_campaign_contexts failComplete wCampaign.id
        ([wNote].filter (fun n => wCampaign.context_note_ids.contains n.id))
        ([wStudent, wStudent2].filter (fun s => wCampaign.student_ids.contains s.id)) = .ok m
      ∧ regenerate_contexts [wCampaign] wCampaign.id [wNote] [wStudent, wStudent2]
          failComplete 5
        = .ok { wCampaign with personalized_contexts := some m, updated_at := 5 } := by
  obtain ⟨m, hm, -⟩ := generate_ok_of_strNames failComplete wCampaign.id
    ([wNote].filter (fun n => wCampaign.context_note_ids.contains n.id))
    ([wStudent, wStudent2].filter (fun s => wCampaign.student_ids.contains s.id)) (by decide)
  exact ⟨m, hm,
    regenerate_contexts_overwrites wCampaign (some [("1", wEntry1), ("2", wEntry2)])
      [wNote] [wStudent, wStudent2] failComplete 5 m hm⟩

/-- C7 counterexample: an injected always-failing completion with a
second student whose bag holds a non-string `student_name`: instead of
that student's context string matching the fallback template, the whole
call raises `AttributeError` — no mapping and no header-bearing string
exists for the failing students. -/
theorem generate_contexts_fallback_markers_counterexample :
    generate_campaign_contexts failComplete 2 [wNote] [wStudent, wBadStudent]
      = .error "AttributeError" := rfl

/-- C7 (amended): whenever the call returns a mapping, the entry of a
student whose completion call raised is the fallback brief and carries
the template's three literal headers, while an entry produced from a
successful call is exactly the completion's text, stripped, with no
such guarantee; a completion-failure student with a non-`str`
`student_name` instead makes the whole call raise, so no entry exists
for any student. -/
theorem generate_contexts_fallback_markers
    (complete : Student → String → Option String) (campaign_id : Nat)
    (context_notes : List ContextInfo) (students : List Student)
    (m : List (String × ContextEntry))
    (hm : generate_campaign_contexts complete campaign_id context_notes students = .ok m)
    (p : String × ContextEntry) (hp : p ∈ m) :
    ∃ s ∈ students, p.1 = toString s.id
      ∧ (complete s (prepare_context_info context_notes) = none →
            StrContains p.2.context "PERSONALIZED CONVERSATION CONTEXT FOR"
          ∧ StrContains p.2.context "KEY TALKING POINTS"
          ∧ StrContains p.2.context "CONVERSATION GUIDANCE")
      ∧ (∀ t, complete s (prepare_context_info context_notes) = some t →
          p.2.context = pyStrip t) := by
  obtain ⟨s, hs, h1, hbe⟩ :=
    generate_mem complete campaign_id context_notes students m hm p hp
  refine ⟨s, hs, h1, ?_, ?_⟩
  · intro hnone
    have hgen : generate_student_context complete s (prepare_context_info context_notes)
        = none := by simp [generate_student_context, hnone]
    cases hfb : create_fallback_context s context_notes with
    | ok fb =>
        simp [buildContextEntry, hgen, hfb] at hbe
        rw [← hbe]
        exact create_fallback_contains_headers s context_notes fb hfb
    | error e => simp [buildContextEntry, hgen, hfb] at hbe
  · intro t ht
    have hgen : generate_student_context complete s (prepare_context_info context_notes)
        = some (pyStrip t) := by simp [generate_student_context, ht]
    simp [buildContextEntry, hgen] at hbe
    rw [← hbe]

theorem generate_contexts_fallback_markers_witness :
    ∃ m p, generate_campaign_contexts failComplete 1 [wNote] [wStudent2] = .ok m
      ∧ p ∈ m
      ∧ StrContains p.2.context "PERSONALIZED CONVERSATION CONTEXT FOR"
      ∧ StrContains p.2.context "KEY TALKING POINTS"
      ∧ StrContains p.2.context "CONVERSATION GUIDANCE" := by
  obtain ⟨m, hm, hkeys⟩ := generate_ok_of_strNames failComplete 1 [wNote] [wStudent2] (by decide)
  obtain ⟨p, rest, rfl⟩ : ∃ p rest, m = p :: rest := by
    cases m with
    | nil => simp [wStudent2] at hkeys
    | cons p rest => exact ⟨p, rest, rfl⟩
  obtain ⟨s, hs, h1, hfb, -⟩ := generate_contexts_fallback_markers failComplete 1 [wNote]
    [wStudent2] (p :: rest) hm p (List.mem_cons_self _ _)
  have hs2 : s = wStudent2 := by simpa using hs
  subst hs2
  obtain ⟨hc1, hc2, hc3⟩ := hfb rfl
  exact ⟨p :: rest, p, hm, List.mem_cons_self _ _, hc1, hc2, hc3⟩

/-- C9: `activate` succeeds (→ `"active"`) only from `"draft"`, `pause`
succeeds (→ `"paused"`) only from `"active"`, `delete` succeeds only
from `"draft"`; in every other status each handler raises HTTP 400
before mutating anything. -/
theorem campaign_status_guards
    (campaignStore : List Campaign) (campaign_id : Nat) (now : Nat) (campaign : Campaign)
    (hfind : campaignStore.find? (fun c => c.id == campaign_id) = some campaign) :
    (campaign.status = "draft" →
        activate_campaign campaignStore campaign_id now
          = .ok { campaign with status := "active", updated_at := now })
    ∧ (campaign.status ≠ "draft" →
        activate_campaign campaignStore campaign_id now = .error 400)
    ∧ (campaign.status = "active" →
        pause_campaign campaignStore campaign_id now
          = .ok { campaign with status := "paused", updated_at := now })
    ∧ (campaign.status ≠ "active" →
        pause_campaign campaignStore campaign_id now = .error 400)
    ∧ (campaign.status = "draft" →
        delete_campaign campaignStore campaign_id
          = .ok (campaignStore.filter (fun c => c.id != campaign_id)))
    ∧ (campaign.status ≠ "draft" →
        delete_campaign campaignStore campaign_id = .error 400) := by
  refine ⟨?_, ?_, ?_, ?_, ?_, ?_⟩ <;> intro h <;>
    simp [activate_campaign, pause_campaign, delete_campaign, hfind, h]

theorem campaign_status_guards_witness :
    (wCampaign.status = "draft"
      ∧ activate_campaign [wCampaign] 10 7
          = .ok { wCampaign with status := "active", updated_at := 7 })
    ∧ (wActive.status ≠ "draft"
      ∧ activate_campaign [wActive] 11 7 = .error 400
      ∧ pause_campaign [wActive] 11 7
          = .ok { wActive with status := "paused", updated_at := 7 }
      ∧ delete_campaign [wActive] 11 = .error 400) :=
  ⟨⟨rfl, (campaign_status_guards [wCampaign] 10 7 wCampaign rfl).1 rfl⟩,
    by decide,
    (campaign_status_guards [wActive] 11 7 wActive rfl).2.1 (by decide),
    (campaign_status_guards [wActive] 11 7 wActive rfl).2.2.1 rfl,
    (campaign_status_guards [wActive] 11 7 wActive rfl).2.2.2.2.2 (by decide)⟩

end AkashOutreach
